import Mathlib

/-!
Verification of the MCP (Model Context Protocol) client library:
a shallow embedding of src/mcp/protocol.py, src/mcp/client.py and
src/mcp/transport.py, together with theorems about the embedded
definitions.

JSON payloads are modelled by the inductive `JValue`; Python dicts are
modelled as key-unique association lists with first-match lookup
(`dictGet`), membership (`dictHas`), deletion (`dictErase`) and
overwriting insertion (`dictInsert`), which agree with Python dict
semantics on every list.  Functions that raise exceptions are modelled
in `Except`.
-/

/-- A decoded JSON value, the type of every payload the client moves. -/
inductive JValue where
  | null : JValue
  | bool : Bool → JValue
  | num : Int → JValue
  | str : String → JValue
  | arr : List JValue → JValue
  | obj : List (String × JValue) → JValue

/-- First-match lookup in an association list, Python `d.get(k)` / `d[k]`. -/
def dictGet {α : Type} : List (String × α) → String → Option α
  | [], _ => none
  | (k', v) :: rest, k => if k' = k then some v else dictGet rest k

/-- Key membership, Python `k in d`. -/
def dictHas {α : Type} : List (String × α) → String → Bool
  | [], _ => false
  | (k', _) :: rest, k => if k' = k then true else dictHas rest k

/-- Remove every binding of a key, Python `d.pop(k, default)`'s removal effect. -/
def dictErase {α : Type} : List (String × α) → String → List (String × α)
  | [], _ => []
  | (k', v) :: rest, k => if k' = k then dictErase rest k else (k', v) :: dictErase rest k

/-- Overwriting insertion, Python `d[k] = v`. -/
def dictInsert {α : Type} (l : List (String × α)) (k : String) (v : α) : List (String × α) :=
  (k, v) :: dictErase l k

theorem dictGet_nil {α : Type} (k : String) : dictGet ([] : List (String × α)) k = none := rfl

theorem dictGet_cons_self {α : Type} (k : String) (v : α) (rest : List (String × α)) :
    dictGet ((k, v) :: rest) k = some v := by
  simp [dictGet]

theorem dictGet_cons_ne {α : Type} {k' k : String} (h : k' ≠ k) (v : α)
    (rest : List (String × α)) : dictGet ((k', v) :: rest) k = dictGet rest k := by
  simp [dictGet, h]

theorem dictHas_iff_dictGet {α : Type} (l : List (String × α)) (k : String) :
    dictHas l k = true ↔ ∃ v, dictGet l k = some v := by
  induction l with
  | nil => simp [dictHas, dictGet]
  | cons p rest ih =>
    obtain ⟨k', v⟩ := p
    by_cases h : k' = k
    · subst h; simp [dictHas, dictGet]
    · simp [dictHas, dictGet, h, ih]

theorem dictHas_eq_false_iff {α : Type} (l : List (String × α)) (k : String) :
    dictHas l k = false ↔ dictGet l k = none := by
  rw [← Bool.not_eq_true, dictHas_iff_dictGet]
  cases h : dictGet l k <;> simp [h]

theorem dictHas_dictErase_self {α : Type} (l : List (String × α)) (k : String) :
    dictHas (dictErase l k) k = false := by
  induction l with
  | nil => rfl
  | cons p rest ih =>
    obtain ⟨k', v⟩ := p
    by_cases h : k' = k
    · simp [dictErase, h, ih]
    · simp [dictErase, dictHas, h, ih]

theorem dictGet_dictErase_self {α : Type} (l : List (String × α)) (k : String) :
    dictGet (dictErase l k) k = none := by
  rw [← dictHas_eq_false_iff]
  exact dictHas_dictErase_self l k

theorem dictGet_dictInsert_self {α : Type} (l : List (String × α)) (k : String) (v : α) :
    dictGet (dictInsert l k v) k = some v := by
  simp [dictInsert, dictGet]

/-- Flag update of the waiter map, `event.set()` on the entries bound to a key. -/
def setEventFlag : List (String × Bool) → String → List (String × Bool)
  | [], _ => []
  | (k', f) :: rest, k => (k', if k' = k then true else f) :: setEventFlag rest k

theorem dictGet_setEventFlag_ne {s k : String} (h : s ≠ k) (l : List (String × Bool)) :
    dictGet (setEventFlag l s) k = dictGet l k := by
  induction l with
  | nil => rfl
  | cons p rest ih =>
    obtain ⟨k', f⟩ := p
    by_cases hk : k' = k
    · subst hk
      simp [setEventFlag, dictGet, (by simpa using Ne.symm h : ¬k' = s)]
    · simp [setEventFlag, dictGet, hk, ih]

/-! ### Message model (src/mcp/protocol.py) -/

/-- The MCP protocol error value (class MCPError in src/mcp/protocol.py):
an error code, a human-readable message and optional extra data. -/
structure MCPError where
  code : Int
  message : String
  data : Option JValue := none

/-- Error code constant PARSE_ERROR from class MCPError. -/
def MCPError.PARSE_ERROR : Int := -32700

/-- Error code constant INVALID_REQUEST from class MCPError. -/
def MCPError.INVALID_REQUEST : Int := -32600

/-- Error code constant METHOD_NOT_FOUND from class MCPError. -/
def MCPError.METHOD_NOT_FOUND : Int := -32601

/-- Error code constant INVALID_PARAMS from class MCPError. -/
def MCPError.INVALID_PARAMS : Int := -32602

/-- Error code constant INTERNAL_ERROR from class MCPError. -/
def MCPError.INTERNAL_ERROR : Int := -32603

/-- Lookup of a key on an arbitrary JSON value: `message.get(k)` where a
non-dict has no keys. -/
def jGetJ : JValue → String → Option JValue
  | JValue.obj fields, k => dictGet fields k
  | _, _ => none

/-- Key membership on an arbitrary JSON value, `k in message`. -/
def hasKeyJ : JValue → String → Bool
  | JValue.obj fields, k => dictHas fields k
  | _, _ => false

/-- Embedding of validate_message (src/mcp/protocol.py lines 198-224):
checks the jsonrpc version tag, then the request/notification shape when a
method field is present, else the response shape. -/
def validate_message (v : JValue) : Except MCPError Unit :=
  match v with
  | JValue.obj data =>
    match dictGet data "jsonrpc" with
    | some (JValue.str ver) =>
      if ver = "2.0" then
        if dictHas data "method" then
          match dictGet data "method" with
          | some (JValue.str _) =>
            if dictHas data "params" then
              match dictGet data "params" with
              | some (JValue.obj _) => Except.ok ()
              | _ => Except.error ⟨MCPError.INVALID_PARAMS, "Params must be an object", none⟩
            else Except.ok ()
          | _ => Except.error ⟨MCPError.INVALID_REQUEST, "Method must be a string", none⟩
        else if dictHas data "result" || dictHas data "error" then
          if !dictHas data "id" then
            Except.error ⟨MCPError.INVALID_REQUEST, "Response must have an id", none⟩
          else if dictHas data "result" && dictHas data "error" then
            Except.error ⟨MCPError.INVALID_REQUEST, "Response cannot have both result and error", none⟩
          else Except.ok ()
        else Except.error ⟨MCPError.INVALID_REQUEST, "Invalid message format", none⟩
      else Except.error ⟨MCPError.INVALID_REQUEST, "Invalid jsonrpc version", none⟩
    | _ => Except.error ⟨MCPError.INVALID_REQUEST, "Invalid jsonrpc version", none⟩
  | _ => Except.error ⟨MCPError.INVALID_REQUEST, "Message must be a JSON object", none⟩

/-- The resources part of validate_capabilities (lines 239-242): a present
resources group must be object-shaped. -/
def validateResourcesGroup (caps : List (String × JValue)) : Except MCPError Unit :=
  if dictHas caps "resources" then
    match dictGet caps "resources" with
    | some (JValue.obj _) => Except.ok ()
    | _ => Except.error ⟨MCPError.INVALID_PARAMS, "Resources capability must be an object", none⟩
  else Except.ok ()

/-- Embedding of validate_capabilities (src/mcp/protocol.py lines 227-242):
the input must be a dict, a present tools group must be object-shaped, then
a present resources group must be object-shaped.  No other group is
inspected by the source. -/
def validate_capabilities (v : JValue) : Except MCPError Unit :=
  match v with
  | JValue.obj caps =>
    if dictHas caps "tools" then
      match dictGet caps "tools" with
      | some (JValue.obj _) => validateResourcesGroup caps
      | _ => Except.error ⟨MCPError.INVALID_PARAMS, "Tools capability must be an object", none⟩
    else validateResourcesGroup caps
  | _ => Except.error ⟨MCPError.INVALID_PARAMS, "Capabilities must be an object", none⟩

/-- Embedding of validate_tool_call (src/mcp/protocol.py lines 245-251).
The embedding types name as a string and arguments as an object, so only
the non-emptiness check on the name remains observable. -/
def validate_tool_call (name : String) (arguments : List (String × JValue)) :
    Except MCPError Unit :=
  if name = "" then
    Except.error ⟨MCPError.INVALID_PARAMS, "Tool name must be a non-empty string", none⟩
  else
    let _ := arguments
    Except.ok ()

/-- MCPRequest(method, params, request_id).to_dict(): the jsonrpc tag, the
method and the id, plus the params only when the params dict is non-empty
(Python truthiness of the `if params:` guard). -/
def requestToDict (method : String) (params : List (String × JValue)) (rid : String) : JValue :=
  JValue.obj ([("jsonrpc", JValue.str "2.0"), ("method", JValue.str method),
    ("id", JValue.str rid)] ++
    (if params.isEmpty then [] else [("params", JValue.obj params)]))

/-- MCPNotification(method, params).to_dict(): no id, params only when
non-empty. -/
def notificationToDict (method : String) (params : List (String × JValue)) : JValue :=
  JValue.obj ([("jsonrpc", JValue.str "2.0"), ("method", JValue.str method)] ++
    (if params.isEmpty then [] else [("params", JValue.obj params)]))

/-- MCPCapabilities().to_dict(): the four empty capability groups the client
declares (src/mcp/protocol.py lines 133-144). -/
def capabilitiesToDict : JValue :=
  JValue.obj [("tools", JValue.obj []), ("resources", JValue.obj []),
    ("prompts", JValue.obj []), ("logging", JValue.obj [])]

/-! ### Request id generation (src/mcp/client.py lines 362-366)

The source formats the incremented counter in decimal inside the id string,
so we first establish that the decimal rendering used by Nat.repr is
injective. -/

/-- The big-endian decimal digit list of a natural number, the specification
of what Nat.toDigitsCore computes at base 10. -/
def decRender (n : Nat) : List Char :=
  if _h : n < 10 then [Nat.digitChar n]
  else decRender (n / 10) ++ [Nat.digitChar (n % 10)]
decreasing_by
  exact Nat.div_lt_self (by omega) (by decide)

theorem decRender_lt {n : Nat} (h : n < 10) : decRender n = [Nat.digitChar n] := by
  rw [decRender]
  simp [h]

theorem decRender_ge {n : Nat} (h : ¬n < 10) :
    decRender n = decRender (n / 10) ++ [Nat.digitChar (n % 10)] := by
  rw [decRender]
  simp [h]

theorem decRender_ne_nil (n : Nat) : decRender n ≠ [] := by
  by_cases h : n < 10
  · rw [decRender_lt h]; simp
  · rw [decRender_ge h]; simp

theorem toDigitsCore_eq_decRender :
    ∀ (fuel n : Nat) (ds : List Char), n < fuel →
      Nat.toDigitsCore 10 fuel n ds = decRender n ++ ds := by
  intro fuel
  induction fuel with
  | zero => intro n ds h; exact absurd h (Nat.not_lt_zero n)
  | succ f ih =>
    intro n ds h
    by_cases h10 : n < 10
    · have hdiv : n / 10 = 0 := Nat.div_eq_of_lt h10
      have hmod : n % 10 = n := Nat.mod_eq_of_lt h10
      simp [Nat.toDigitsCore, hdiv, hmod, decRender_lt h10]
    · have hdiv : n / 10 ≠ 0 := by omega
      have hlt : n / 10 < f := by omega
      rw [Nat.toDigitsCore]
      simp only [hdiv, if_false]
      rw [ih (n / 10) _ hlt, decRender_ge h10]
      simp

theorem repr_eq_decRender (n : Nat) : Nat.repr n = (decRender n).asString := by
  show (Nat.toDigits 10 n).asString = (decRender n).asString
  rw [Nat.toDigits, toDigitsCore_eq_decRender (n + 1) n [] (Nat.lt_succ_self n)]
  simp

theorem digitChar_inj_lt (a b : Nat) (ha : a < 10) (hb : b < 10)
    (h : Nat.digitChar a = Nat.digitChar b) : a = b := by
  have key : ∀ x y : Fin 10, Nat.digitChar x.val = Nat.digitChar y.val → x = y := by decide
  have := key ⟨a, ha⟩ ⟨b, hb⟩ h
  exact congrArg Fin.val this

theorem decRender_inj : ∀ a b : Nat, decRender a = decRender b → a = b := by
  intro a
  induction a using Nat.strong_induction_on with
  | _ a ih =>
    intro b h
    by_cases ha : a < 10 <;> by_cases hb : b < 10
    · rw [decRender_lt ha, decRender_lt hb] at h
      exact digitChar_inj_lt a b ha hb (List.singleton_injective h)
    · rw [decRender_lt ha, decRender_ge hb] at h
      have hl : 1 = (decRender (b / 10)).length + 1 := by
        simpa using congrArg List.length h
      have h0 : (decRender (b / 10)).length = 0 := by omega
      exact absurd (List.length_eq_zero.mp h0) (decRender_ne_nil _)
    · rw [decRender_ge ha, decRender_lt hb] at h
      have hl : (decRender (a / 10)).length + 1 = 1 := by
        simpa using congrArg List.length h
      have h0 : (decRender (a / 10)).length = 0 := by omega
      exact absurd (List.length_eq_zero.mp h0) (decRender_ne_nil _)
    · rw [decRender_ge ha, decRender_ge hb] at h
      have hlen : ([Nat.digitChar (a % 10)] : List Char).length =
          ([Nat.digitChar (b % 10)] : List Char).length := rfl
      obtain ⟨h1, h2⟩ := List.append_inj' h hlen
      have hdiv : a / 10 = b / 10 :=
        ih (a / 10) (Nat.div_lt_self (by omega) (by decide)) (b / 10) h1
      have hmod : a % 10 = b % 10 :=
        digitChar_inj_lt _ _ (Nat.mod_lt a (by decide)) (Nat.mod_lt b (by decide))
          (List.singleton_injective h2)
      omega

theorem nat_repr_inj {a b : Nat} (h : Nat.repr a = Nat.repr b) : a = b := by
  rw [repr_eq_decRender, repr_eq_decRender] at h
  refine decRender_inj a b ?_
  have hdata : (decRender a).asString.data = (decRender b).asString.data :=
    congrArg String.data h
  simpa [List.asString] using hdata

/-- Embedding of MCPClient._generate_request_id (src/mcp/client.py lines
362-366): under the client lock the counter is incremented and the id
string combines the new counter value in decimal with an 8-character
random suffix (uuid4().hex[:8]).  Returns the id and the new counter. -/
def generate_request_id (counter : Nat) (sfx : String) : String × Nat :=
  ("req_" ++ Nat.repr (counter + 1) ++ "_" ++ sfx, counter + 1)

theorem generate_request_id_inj {a b : Nat} {s1 s2 : String}
    (hs1 : s1.length = 8) (hs2 : s2.length = 8)
    (h : (generate_request_id a s1).1 = (generate_request_id b s2).1) : a = b := by
  have hd : (("req_".data ++ (Nat.repr (a + 1)).data) ++ "_".data) ++ s1.data =
      (("req_".data ++ (Nat.repr (b + 1)).data) ++ "_".data) ++ s2.data := by
    have h' := congrArg String.data h
    simp only [generate_request_id, String.data_append] at h'
    exact h'
  have hlen1 : s1.data.length = s2.data.length := by
    have e1 : s1.data.length = s1.length := rfl
    have e2 : s2.data.length = s2.length := rfl
    rw [e1, e2, hs1, hs2]
  obtain ⟨h1, _⟩ := List.append_inj' hd hlen1
  obtain ⟨h2, _⟩ := List.append_inj' h1 rfl
  obtain ⟨_, h3⟩ := List.append_inj h2 rfl
  have : a + 1 = b + 1 := nat_repr_inj (String.ext h3)
  omega

/-- The ids produced by successive _generate_request_id calls on one client.
The lock serializes concurrent callers, so every concurrent execution is
one such sequence; suffixes is the list of random suffixes drawn. -/
def idTrace (counter : Nat) : List String → List String
  | [] => []
  | sfx :: rest =>
    let (rid, c') := generate_request_id counter sfx
    rid :: idTrace c' rest

theorem mem_idTrace {y : String} :
    ∀ (l : List String) (counter : Nat), y ∈ idTrace counter l →
      ∃ m sfx, sfx ∈ l ∧ counter ≤ m ∧ y = (generate_request_id m sfx).1 := by
  intro l
  induction l with
  | nil => intro counter h; simp [idTrace] at h
  | cons sfx rest ih =>
    intro counter h
    simp only [idTrace, List.mem_cons] at h
    rcases h with h | h
    · exact ⟨counter, sfx, List.mem_cons_self sfx rest, Nat.le_refl counter, h⟩
    · obtain ⟨m, s, hs, hm, hy⟩ := ih (counter + 1) h
      exact ⟨m, s, List.mem_cons_of_mem sfx hs, by omega, hy⟩

theorem idTrace_pairwise_ne (counter : Nat) (l : List String)
    (hlen : ∀ s ∈ l, s.length = 8) :
    (idTrace counter l).Pairwise (fun a b => a ≠ b) := by
  induction l generalizing counter with
  | nil => simp [idTrace]
  | cons sfx rest ih =>
    simp only [idTrace, List.pairwise_cons]
    constructor
    · intro y hy heq
      obtain ⟨m, s, hs, hm, hyeq⟩ := mem_idTrace rest (counter + 1) hy
      have hceq : counter = m := by
        apply generate_request_id_inj (hlen sfx (List.mem_cons_self sfx rest))
          (hlen s (List.mem_cons_of_mem sfx hs))
        rw [← heq] at hyeq
        exact hyeq
      omega
    · exact ih (counter + 1) (fun s hs => hlen s (List.mem_cons_of_mem sfx hs))

/-! ### Protocol client (src/mcp/client.py) -/

/-- The mutable session state of MCPClient (src/mcp/client.py lines 23-34).
pendingRequests maps a request id to its threading.Event, modelled by the
flag the event carries (false = not set); requestResponses stores the
delivered response payloads. -/
structure ClientState where
  requestIdCounter : Nat
  pendingRequests : List (String × Bool)
  requestResponses : List (String × JValue)
  serverCapabilities : Option JValue
  initialized : Bool

/-- The exceptions MCPClient raises: RuntimeError for a call before the
handshake, TimeoutError on waiter expiry, a locally raised MCPError from
validation, and an MCPError rebuilt from the error member of a remote
Response (carried here as the raw wire payload). -/
inductive ClientErr where
  | notInitialized : ClientErr
  | timeout : String → ClientErr
  | localError : MCPError → ClientErr
  | remoteError : JValue → ClientErr

/-- The three concrete transport classes of src/mcp/transport.py. -/
inductive TransportKind where
  | stdio : TransportKind
  | http : TransportKind
  | ws : TransportKind

/-- Whether the transport object has a session attribute: only
HTTPTransport.__init__ assigns self.session (src/mcp/transport.py line
158); the hasattr check in _send_notification keys on this. -/
def hasSessionAttr : TransportKind → Bool
  | TransportKind.http => true
  | _ => false

/-- One call's view of the transport: the kind, what send_message returns
(a dict for HTTP, None for the asynchronous transports) and the message,
if any, the background reader delivers to the client before the waiter
times out. -/
structure TransportBehavior where
  kind : TransportKind
  directResponse : Option JValue
  arrival : Option JValue

/-- Embedding of MCPClient._handle_response (src/mcp/client.py lines
301-312): look the message id up in pending_requests; when found, store the
payload in request_responses and set the waiter's event; otherwise do
nothing. -/
def handle_response (st : ClientState) (m : JValue) : ClientState :=
  match jGetJ m "id" with
  | some (JValue.str rid) =>
    if dictHas st.pendingRequests rid then
      { st with requestResponses := dictInsert st.requestResponses rid m,
                pendingRequests := setEventFlag st.pendingRequests rid }
    else st
  | _ => st

/-- MCPResponse(request_id, error=MCPError(METHOD_NOT_FOUND, ...)).to_dict(),
the reply _handle_request sends for a server-initiated request
(src/mcp/client.py lines 329-344). -/
def methodNotFoundReply (rid : Option JValue) (method : Option JValue) : JValue :=
  let name := match method with
    | some (JValue.str s) => s
    | _ => ""
  JValue.obj [("jsonrpc", JValue.str "2.0"), ("id", rid.getD JValue.null),
    ("error", JValue.obj [("code", JValue.num MCPError.METHOD_NOT_FOUND),
      ("message", JValue.str ("Method " ++ name ++ " not supported"))])]

/-- Embedding of MCPClient._handle_message (src/mcp/client.py lines
280-299): validate the inbound payload (a failure is caught and only
logged), then dispatch on its shape; returns the new state and the
messages the handler itself sends back over the transport. -/
def handle_message (st : ClientState) (m : JValue) : ClientState × List JValue :=
  match validate_message m with
  | Except.error _ => (st, [])
  | Except.ok _ =>
    if hasKeyJ m "id" && (hasKeyJ m "result" || hasKeyJ m "error") then
      (handle_response st m, [])
    else if hasKeyJ m "method" && !hasKeyJ m "id" then
      (st, [])
    else if hasKeyJ m "method" && hasKeyJ m "id" then
      (st, [methodNotFoundReply (jGetJ m "id") (jGetJ m "method")])
    else (st, [])

/-- Embedding of MCPClient._send_request (src/mcp/client.py lines 220-258):
generate a fresh id, send the encoded request, return a dict result
directly when the transport produced one (HTTP); otherwise register a
waiter, let the reader deliver at most one message, then either pop the
stored response (waiter released) or fail with TimeoutError, removing the
pending_requests and request_responses entries in the finally block on
both paths.  Returns the call result, the final state and the list of
messages sent over the transport. -/
def sendRequest (tb : TransportBehavior) (st : ClientState) (method : String)
    (params : List (String × JValue)) (sfx : String) :
    Except ClientErr JValue × ClientState × List JValue :=
  let rid := (generate_request_id st.requestIdCounter sfx).1
  let st0 := { st with requestIdCounter := (generate_request_id st.requestIdCounter sfx).2 }
  let req := requestToDict method params rid
  match tb.directResponse with
  | some (JValue.obj o) => (Except.ok (JValue.obj o), st0, [req])
  | _ =>
    let st1 := { st0 with pendingRequests := dictInsert st0.pendingRequests rid false }
    let step := match tb.arrival with
      | some m => handle_message st1 m
      | none => (st1, [])
    let st2 := step.1
    let extra := step.2
    let released := (dictGet st2.pendingRequests rid).getD false
    let resp := (dictGet st2.requestResponses rid).getD (JValue.obj [])
    let st3 := { st2 with
      pendingRequests := dictErase st2.pendingRequests rid,
      requestResponses := dictErase st2.requestResponses rid }
    (if released then Except.ok resp else Except.error (ClientErr.timeout rid),
     st3, req :: extra)

/-- The common epilogue of the typed operations: raise an MCPError rebuilt
from the wire payload when the response carries an error member, else
return response.get('result', default empty dict). -/
def extractResult (r : Except ClientErr JValue) : Except ClientErr JValue :=
  match r with
  | Except.error e => Except.error e
  | Except.ok resp =>
    if hasKeyJ resp "error" then
      Except.error (ClientErr.remoteError ((jGetJ resp "error").getD JValue.null))
    else Except.ok ((jGetJ resp "result").getD (JValue.obj []))

/-- The messages _send_notification puts on the wire (src/mcp/client.py
lines 260-278): nothing when the transport has a session attribute and the
method is initialized (the HTTP skip), else the encoded notification. -/
def sendNotificationTrace (k : TransportKind) (method : String)
    (params : List (String × JValue)) : List JValue :=
  if hasSessionAttr k && method == "initialized" then []
  else [notificationToDict method params]

/-- The params dict MCPClient.initialize builds (src/mcp/client.py lines
49-53). -/
def initParams (clientInfo : JValue) : List (String × JValue) :=
  [("protocolVersion", JValue.str "2024-11-05"),
   ("capabilities", capabilitiesToDict),
   ("clientInfo", clientInfo)]

/-- Embedding of MCPClient.initialize (src/mcp/client.py lines 45-79):
send the initialize request, raise the remote error if the response
carries one, else store the advertised capabilities, send the initialized
notification (skipped on HTTP) and mark the session initialized.  The
source performs no check of the initialized flag before sending. -/
def initializeSession (tb : TransportBehavior) (st : ClientState) (clientInfo : JValue)
    (sfx : String) : Except ClientErr JValue × ClientState × List JValue :=
  match sendRequest tb st "initialize" (initParams clientInfo) sfx with
  | (Except.error e, st', tr) => (Except.error e, st', tr)
  | (Except.ok resp, st', tr) =>
    if hasKeyJ resp "error" then
      (Except.error (ClientErr.remoteError ((jGetJ resp "error").getD JValue.null)), st', tr)
    else
      let result := (jGetJ resp "result").getD (JValue.obj [])
      let st2 := { st' with
        serverCapabilities := some ((jGetJ result "capabilities").getD (JValue.obj [])) }
      let st3 := { st2 with initialized := true }
      (Except.ok result, st3, tr ++ sendNotificationTrace tb.kind "initialized" [])

/-- Embedding of MCPClient.list_tools (src/mcp/client.py lines 81-100). -/
def list_tools (tb : TransportBehavior) (st : ClientState) (sfx : String) :
    Except ClientErr JValue × ClientState × List JValue :=
  if !st.initialized then (Except.error ClientErr.notInitialized, st, [])
  else
    let out := sendRequest tb st "tools/list" [] sfx
    (extractResult out.1, out.2.1, out.2.2)

/-- Embedding of MCPClient.call_tool (src/mcp/client.py lines 102-129):
the initialized check comes first, then validate_tool_call, then the
request. -/
def call_tool (tb : TransportBehavior) (st : ClientState) (name : String)
    (arguments : List (String × JValue)) (sfx : String) :
    Except ClientErr JValue × ClientState × List JValue :=
  if !st.initialized then (Except.error ClientErr.notInitialized, st, [])
  else
    match validate_tool_call name arguments with
    | Except.error e => (Except.error (ClientErr.localError e), st, [])
    | Except.ok _ =>
      let params := [("name", JValue.str name), ("arguments", JValue.obj arguments)]
      let out := sendRequest tb st "tools/call" params sfx
      (extractResult out.1, out.2.1, out.2.2)

/-- Embedding of MCPClient.list_resources (src/mcp/client.py lines 131-150). -/
def list_resources (tb : TransportBehavior) (st : ClientState) (sfx : String) :
    Except ClientErr JValue × ClientState × List JValue :=
  if !st.initialized then (Except.error ClientErr.notInitialized, st, [])
  else
    let out := sendRequest tb st "resources/list" [] sfx
    (extractResult out.1, out.2.1, out.2.2)

/-- Embedding of MCPClient.read_resource (src/mcp/client.py lines 152-172). -/
def read_resource (tb : TransportBehavior) (st : ClientState) (uri : String) (sfx : String) :
    Except ClientErr JValue × ClientState × List JValue :=
  if !st.initialized then (Except.error ClientErr.notInitialized, st, [])
  else
    let out := sendRequest tb st "resources/read" [("uri", JValue.str uri)] sfx
    (extractResult out.1, out.2.1, out.2.2)

/-- Embedding of MCPClient.list_prompts (src/mcp/client.py lines 174-193). -/
def list_prompts (tb : TransportBehavior) (st : ClientState) (sfx : String) :
    Except ClientErr JValue × ClientState × List JValue :=
  if !st.initialized then (Except.error ClientErr.notInitialized, st, [])
  else
    let out := sendRequest tb st "prompts/list" [] sfx
    (extractResult out.1, out.2.1, out.2.2)

/-- Embedding of MCPClient.get_prompt (src/mcp/client.py lines 195-218):
the arguments member joins the params only when arguments is truthy. -/
def get_prompt (tb : TransportBehavior) (st : ClientState) (name : String)
    (arguments : Option (List (String × JValue))) (sfx : String) :
    Except ClientErr JValue × ClientState × List JValue :=
  if !st.initialized then (Except.error ClientErr.notInitialized, st, [])
  else
    let params := [("name", JValue.str name)] ++
      (match arguments with
       | some a => if a.isEmpty then [] else [("arguments", JValue.obj a)]
       | none => [])
    let out := sendRequest tb st "prompts/get" params sfx
    (extractResult out.1, out.2.1, out.2.2)

/-! ### Transports (src/mcp/transport.py) -/

/-- The state of StdioTransport the send path observes: the connected flag,
whether self.process is set, and the messages written to the child's
stdin. -/
structure StdioState where
  connected : Bool
  processAlive : Bool
  written : List JValue

/-- Embedding of StdioTransport.send_message (src/mcp/transport.py lines
102-117): raise before any write when not connected or the process handle
is gone; otherwise write the encoded line and return None. -/
def stdioSendMessage (st : StdioState) (m : JValue) :
    Except String (Option JValue) × StdioState :=
  if !st.connected || !st.processAlive then
    (Except.error "Not connected to MCP server", st)
  else
    (Except.ok none, { st with written := st.written ++ [m] })

/-- The state of HTTPTransport the send path observes: the connected flag
and the messages POSTed through the session. -/
structure HTTPState where
  connected : Bool
  posts : List JValue

/-- Embedding of HTTPTransport.send_message (src/mcp/transport.py lines
207-227): raise before any network call when not connected; otherwise POST
the message and return the decoded body (serverReply abstracts the
network). -/
def httpSendMessage (st : HTTPState) (m : JValue) (serverReply : JValue) :
    Except String (Option JValue) × HTTPState :=
  if !st.connected then
    (Except.error "Not connected to MCP server", st)
  else
    (Except.ok (some serverReply), { st with posts := st.posts ++ [m] })

/-- The state of WebSocketTransport the send path observes: the connected
flag, whether self.websocket is set, and the frames sent. -/
structure WSState where
  connected : Bool
  socketOpen : Bool
  sent : List JValue

/-- Embedding of WebSocketTransport.send_message (src/mcp/transport.py
lines 281-295): raise before any frame is written when not connected or
the socket handle is gone; otherwise send the frame and return None. -/
def wsSendMessage (st : WSState) (m : JValue) :
    Except String (Option JValue) × WSState :=
  if !st.connected || !st.socketOpen then
    (Except.error "Not connected to MCP server", st)
  else
    (Except.ok none, { st with sent := st.sent ++ [m] })

/-- Shape of the capability groups validate_capabilities accepts. -/
def isObjB : JValue → Bool
  | JValue.obj _ => true
  | _ => false

/-- A well-formed success Response for a given request id, as a server
would send it to the background reader. -/
def responseFor (rid : String) (r : JValue) : JValue :=
  JValue.obj [("jsonrpc", JValue.str "2.0"), ("id", JValue.str rid), ("result", r)]

/-! ### Claim theorems -/

/-- C3: any two distinct request-id generation invocations on the same
client produce unequal ids.  The client lock serializes the counter
increment and id construction, so every concurrent execution is a
sequence of generate_request_id steps threading the counter; idTrace is
that sequence, with each random suffix an 8-character uuid4().hex[:8]
slice, and all its elements are pairwise distinct. -/
theorem request_ids_pairwise_distinct (counter : Nat) (suffixes : List String)
    (hlen : ∀ s ∈ suffixes, s.length = 8) :
    (idTrace counter suffixes).Pairwise (fun a b => a ≠ b) :=
  idTrace_pairwise_ne counter suffixes hlen

/-- Witness for C3 at counter 0 with three concrete suffixes, two of them
equal: the three generated ids are still pairwise distinct. -/
theorem request_ids_pairwise_distinct_witness :
    (∀ s ∈ ["0a1b2c3d", "0a1b2c3d", "ffffffff"], s.length = 8) ∧
    (idTrace 0 ["0a1b2c3d", "0a1b2c3d", "ffffffff"]).Pairwise (fun a b => a ≠ b) :=
  ⟨by decide, request_ids_pairwise_distinct 0 ["0a1b2c3d", "0a1b2c3d", "ffffffff"] (by decide)⟩

/-- C6 counterexample: the claim says a non-object prompts group makes
validate_capabilities fail with InvalidParams, but the source only checks
the tools and resources groups, so this payload validates successfully. -/
theorem validate_capabilities_ignores_prompts :
    validate_capabilities (JValue.obj [("prompts", JValue.num 5)]) = Except.ok () := rfl

theorem validateResourcesGroup_spec (caps : List (String × JValue)) :
    (validateResourcesGroup caps = Except.ok () ↔
      ∀ v, dictGet caps "resources" = some v → isObjB v = true) ∧
    (∀ e, validateResourcesGroup caps = Except.error e →
      e.code = MCPError.INVALID_PARAMS) := by
  by_cases hr : dictHas caps "resources" = true
  · obtain ⟨v, hv⟩ := (dictHas_iff_dictGet caps "resources").mp hr
    cases v <;>
      simp [validateResourcesGroup, hr, hv, isObjB, MCPError.INVALID_PARAMS]
  · rw [Bool.not_eq_true] at hr
    have hg := (dictHas_eq_false_iff caps "resources").mp hr
    simp [validateResourcesGroup, hr, hg]

/-- C6 amended: validate_capabilities accepts a capabilities object exactly
when its tools and resources groups, where present, are object-shaped
(prompts and logging are never inspected), and every failure carries the
InvalidParams code. -/
theorem validate_capabilities_amended (caps : List (String × JValue)) :
    (validate_capabilities (JValue.obj caps) = Except.ok () ↔
      ((∀ v, dictGet caps "tools" = some v → isObjB v = true) ∧
       (∀ v, dictGet caps "resources" = some v → isObjB v = true))) ∧
    (∀ e, validate_capabilities (JValue.obj caps) = Except.error e →
      e.code = MCPError.INVALID_PARAMS) := by
  have hres := validateResourcesGroup_spec caps
  by_cases ht : dictHas caps "tools" = true
  · obtain ⟨v, hv⟩ := (dictHas_iff_dictGet caps "tools").mp ht
    cases v with
    | obj fs =>
      have hval : validate_capabilities (JValue.obj caps) = validateResourcesGroup caps := by
        simp [validate_capabilities, ht, hv]
      refine ⟨?_, ?_⟩
      · rw [hval, hres.1]
        simp [hv, isObjB]
      · rw [hval]
        exact hres.2
    | null =>
      have hval : validate_capabilities (JValue.obj caps) =
          Except.error ⟨MCPError.INVALID_PARAMS, "Tools capability must be an object", none⟩ := by
        simp [validate_capabilities, ht, hv]
      refine ⟨?_, ?_⟩
      · apply iff_of_false
        · rw [hval]; simp
        · rintro ⟨htools, _⟩
          exact absurd (htools _ hv) (by simp [isObjB])
      · intro e he
        rw [hval] at he
        injection he with h'
        subst h'
        rfl
    | bool b =>
      have hval : validate_capabilities (JValue.obj caps) =
          Except.error ⟨MCPError.INVALID_PARAMS, "Tools capability must be an object", none⟩ := by
        simp [validate_capabilities, ht, hv]
      refine ⟨?_, ?_⟩
      · apply iff_of_false
        · rw [hval]; simp
        · rintro ⟨htools, _⟩
          exact absurd (htools _ hv) (by simp [isObjB])
      · intro e he
        rw [hval] at he
        injection he with h'
        subst h'
        rfl
    | num n =>
      have hval : validate_capabilities (JValue.obj caps) =
          Except.error ⟨MCPError.INVALID_PARAMS, "Tools capability must be an object", none⟩ := by
        simp [validate_capabilities, ht, hv]
      refine ⟨?_, ?_⟩
      · apply iff_of_false
        · rw [hval]; simp
        · rintro ⟨htools, _⟩
          exact absurd (htools _ hv) (by simp [isObjB])
      · intro e he
        rw [hval] at he
        injection he with h'
        subst h'
        rfl
    | str s =>
      have hval : validate_capabilities (JValue.obj caps) =
          Except.error ⟨MCPError.INVALID_PARAMS, "Tools capability must be an object", none⟩ := by
        simp [validate_capabilities, ht, hv]
      refine ⟨?_, ?_⟩
      · apply iff_of_false
        · rw [hval]; simp
        · rintro ⟨htools, _⟩
          exact absurd (htools _ hv) (by simp [isObjB])
      · intro e he
        rw [hval] at he
        injection he with h'
        subst h'
        rfl
    | arr xs =>
      have hval : validate_capabilities (JValue.obj caps) =
          Except.error ⟨MCPError.INVALID_PARAMS, "Tools capability must be an object", none⟩ := by
        simp [validate_capabilities, ht, hv]
      refine ⟨?_, ?_⟩
      · apply iff_of_false
        · rw [hval]; simp
        · rintro ⟨htools, _⟩
          exact absurd (htools _ hv) (by simp [isObjB])
      · intro e he
        rw [hval] at he
        injection he with h'
        subst h'
        rfl
  · rw [Bool.not_eq_true] at ht
    have hg := (dictHas_eq_false_iff caps "tools").mp ht
    have hval : validate_capabilities (JValue.obj caps) = validateResourcesGroup caps := by
      simp [validate_capabilities, ht]
    refine ⟨?_, ?_⟩
    · rw [hval, hres.1]
      simp [hg]
    · rw [hval]
      exact hres.2

/-- Witness for C6 amended: a string-valued tools group is rejected with
the InvalidParams code. -/
theorem validate_capabilities_amended_witness :
    (⟨MCPError.INVALID_PARAMS, "Tools capability must be an object", none⟩ : MCPError).code =
      MCPError.INVALID_PARAMS :=
  (validate_capabilities_amended [("tools", JValue.str "x")]).2
    ⟨MCPError.INVALID_PARAMS, "Tools capability must be an object", none⟩ rfl

/-- C8: every typed operation invoked on an uninitialized client fails
with the not-initialized error, sends nothing over the transport, and
leaves the client state unchanged. -/
theorem uninitialized_call_fails (tb : TransportBehavior) (st : ClientState)
    (sfx name uri pname : String) (args : List (String × JValue))
    (pargs : Option (List (String × JValue))) (h : st.initialized = false) :
    list_tools tb st sfx = (Except.error ClientErr.notInitialized, st, []) ∧
    call_tool tb st name args sfx = (Except.error ClientErr.notInitialized, st, []) ∧
    list_resources tb st sfx = (Except.error ClientErr.notInitialized, st, []) ∧
    read_resource tb st uri sfx = (Except.error ClientErr.notInitialized, st, []) ∧
    list_prompts tb st sfx = (Except.error ClientErr.notInitialized, st, []) ∧
    get_prompt tb st pname pargs sfx = (Except.error ClientErr.notInitialized, st, []) := by
  refine ⟨?_, ?_, ?_, ?_, ?_, ?_⟩ <;>
    simp [list_tools, call_tool, list_resources, read_resource, list_prompts, get_prompt, h]

/-- Witness for C8 at a concrete uninitialized client state. -/
theorem uninitialized_call_fails_witness :
    list_tools ⟨TransportKind.stdio, none, none⟩ ⟨0, [], [], none, false⟩ "00000000" =
      (Except.error ClientErr.notInitialized, ⟨0, [], [], none, false⟩, []) ∧
    call_tool ⟨TransportKind.stdio, none, none⟩ ⟨0, [], [], none, false⟩ "t" [] "00000000" =
      (Except.error ClientErr.notInitialized, ⟨0, [], [], none, false⟩, []) ∧
    list_resources ⟨TransportKind.stdio, none, none⟩ ⟨0, [], [], none, false⟩ "00000000" =
      (Except.error ClientErr.notInitialized, ⟨0, [], [], none, false⟩, []) ∧
    read_resource ⟨TransportKind.stdio, none, none⟩ ⟨0, [], [], none, false⟩ "u" "00000000" =
      (Except.error ClientErr.notInitialized, ⟨0, [], [], none, false⟩, []) ∧
    list_prompts ⟨TransportKind.stdio, none, none⟩ ⟨0, [], [], none, false⟩ "00000000" =
      (Except.error ClientErr.notInitialized, ⟨0, [], [], none, false⟩, []) ∧
    get_prompt ⟨TransportKind.stdio, none, none⟩ ⟨0, [], [], none, false⟩ "p" none "00000000" =
      (Except.error ClientErr.notInitialized, ⟨0, [], [], none, false⟩, []) :=
  uninitialized_call_fails ⟨TransportKind.stdio, none, none⟩ ⟨0, [], [], none, false⟩
    "00000000" "t" "u" "p" [] none rfl

/-- C10: on each transport variant, send_message called with the connected
flag false raises the not-connected error before any write or network
call, leaving the transport state unchanged. -/
theorem send_message_requires_connected (m : JValue) (s1 : StdioState) (s2 : HTTPState)
    (s3 : WSState) (reply : JValue) (h1 : s1.connected = false)
    (h2 : s2.connected = false) (h3 : s3.connected = false) :
    stdioSendMessage s1 m = (Except.error "Not connected to MCP server", s1) ∧
    httpSendMessage s2 m reply = (Except.error "Not connected to MCP server", s2) ∧
    wsSendMessage s3 m = (Except.error "Not connected to MCP server", s3) := by
  refine ⟨?_, ?_, ?_⟩ <;> simp [stdioSendMessage, httpSendMessage, wsSendMessage, h1, h2, h3]

/-- Witness for C10 at concrete disconnected transport states. -/
theorem send_message_requires_connected_witness :
    stdioSendMessage ⟨false, true, []⟩ JValue.null =
      (Except.error "Not connected to MCP server", ⟨false, true, []⟩) ∧
    httpSendMessage ⟨false, []⟩ JValue.null JValue.null =
      (Except.error "Not connected to MCP server", ⟨false, []⟩) ∧
    wsSendMessage ⟨false, true, []⟩ JValue.null =
      (Except.error "Not connected to MCP server", ⟨false, true, []⟩) :=
  send_message_requires_connected JValue.null ⟨false, true, []⟩ ⟨false, []⟩ ⟨false, true, []⟩
    JValue.null rfl rfl rfl

/-- C4: any payload whose jsonrpc tag is absent or not the string 2.0
fails validate_message with an InvalidRequest-coded error, and any Request
encoded by MCPRequest.to_dict from a string method and an object-shaped
params validates successfully. -/
theorem validate_message_version_and_requests :
    (∀ v : JValue,
      (∀ o, v = JValue.obj o → dictGet o "jsonrpc" ≠ some (JValue.str "2.0")) →
      ∃ msg, validate_message v = Except.error ⟨MCPError.INVALID_REQUEST, msg, none⟩) ∧
    (∀ (method : String) (params : List (String × JValue)) (rid : String),
      validate_message (requestToDict method params rid) = Except.ok ()) := by
  constructor
  · intro v h
    cases v with
    | obj o =>
      have hne := h o rfl
      cases hjv : dictGet o "jsonrpc" with
      | none => exact ⟨"Invalid jsonrpc version", by simp [validate_message, hjv]⟩
      | some jv =>
        cases jv with
        | str ver =>
          by_cases hv2 : ver = "2.0"
          · exact absurd (hv2 ▸ hjv) hne
          · exact ⟨"Invalid jsonrpc version", by simp [validate_message, hjv, hv2]⟩
        | null => exact ⟨"Invalid jsonrpc version", by simp [validate_message, hjv]⟩
        | bool b => exact ⟨"Invalid jsonrpc version", by simp [validate_message, hjv]⟩
        | num n => exact ⟨"Invalid jsonrpc version", by simp [validate_message, hjv]⟩
        | arr xs => exact ⟨"Invalid jsonrpc version", by simp [validate_message, hjv]⟩
        | obj fs => exact ⟨"Invalid jsonrpc version", by simp [validate_message, hjv]⟩
    | null => exact ⟨"Message must be a JSON object", rfl⟩
    | bool b => exact ⟨"Message must be a JSON object", rfl⟩
    | num n => exact ⟨"Message must be a JSON object", rfl⟩
    | str s => exact ⟨"Message must be a JSON object", rfl⟩
    | arr xs => exact ⟨"Message must be a JSON object", rfl⟩
  · intro method params rid
    by_cases hp : params.isEmpty
    · simp [requestToDict, hp, validate_message, dictGet, dictHas]
    · simp [requestToDict, hp, validate_message, dictGet, dictHas]

/-- Witness for C4: a bare number fails with InvalidRequest, and a
concrete encoded request validates. -/
theorem validate_message_version_and_requests_witness :
    (∃ msg, validate_message (JValue.num 3) =
      Except.error ⟨MCPError.INVALID_REQUEST, msg, none⟩) ∧
    validate_message (requestToDict "tools/list" [] "req_1_00000000") = Except.ok () :=
  ⟨validate_message_version_and_requests.1 (JValue.num 3) (fun _ h => JValue.noConfusion h),
   validate_message_version_and_requests.2 "tools/list" [] "req_1_00000000"⟩

/-- C5: a version-tagged payload with no method member validates exactly
when it carries an id and exactly one of result/error, and every failure
on such a payload carries the InvalidRequest code. -/
theorem validate_message_response_shape (o : List (String × JValue))
    (hver : dictGet o "jsonrpc" = some (JValue.str "2.0"))
    (hnm : dictHas o "method" = false) :
    (validate_message (JValue.obj o) = Except.ok () ↔
      (dictHas o "id" = true ∧ dictHas o "result" ≠ dictHas o "error")) ∧
    (∀ e, validate_message (JValue.obj o) = Except.error e →
      e.code = MCPError.INVALID_REQUEST) := by
  cases hid : dictHas o "id" <;> cases hr : dictHas o "result" <;>
    cases he : dictHas o "error" <;>
    constructor <;>
    simp [validate_message, hver, hnm, hid, hr, he, MCPError.INVALID_REQUEST]

/-- Witness for C5: a well-formed response payload with an id and only a
result member validates. -/
theorem validate_message_response_shape_witness :
    validate_message (JValue.obj [("jsonrpc", JValue.str "2.0"), ("id", JValue.str "1"),
      ("result", JValue.null)]) = Except.ok () :=
  (validate_message_response_shape
    [("jsonrpc", JValue.str "2.0"), ("id", JValue.str "1"), ("result", JValue.null)]
    rfl rfl).1.mpr ⟨rfl, by decide⟩

/-- C1: a delivered Response whose id matches no pending_requests key is
dropped: _handle_message returns normally (the embedding is total and the
validation failure branch is the caught-and-logged path), sends nothing,
releases no waiter and leaves pending_requests and request_responses
untouched. -/
theorem unmatched_response_dropped (st : ClientState) (m : JValue)
    (hid : hasKeyJ m "id" = true)
    (hre : (hasKeyJ m "result" || hasKeyJ m "error") = true)
    (hmiss : ∀ s, jGetJ m "id" = some (JValue.str s) →
      dictHas st.pendingRequests s = false) :
    handle_message st m = (st, []) := by
  have hresp : handle_response st m = st := by
    unfold handle_response
    cases hg : jGetJ m "id" with
    | none => rfl
    | some v =>
      cases v with
      | str s => simp [hmiss s hg]
      | null => rfl
      | bool b => rfl
      | num n => rfl
      | arr xs => rfl
      | obj fs => rfl
  unfold handle_message
  cases hv : validate_message m with
  | error e => rfl
  | ok u => simp [hid, hre, hresp]

/-- Witness for C1: a response for an unknown id leaves a client with one
pending call untouched. -/
theorem unmatched_response_dropped_witness :
    handle_message ⟨1, [("req_1_aaaaaaaa", false)], [], none, true⟩
      (JValue.obj [("jsonrpc", JValue.str "2.0"), ("id", JValue.str "nope"),
        ("result", JValue.null)]) =
      (⟨1, [("req_1_aaaaaaaa", false)], [], none, true⟩, []) :=
  unmatched_response_dropped ⟨1, [("req_1_aaaaaaaa", false)], [], none, true⟩
    (JValue.obj [("jsonrpc", JValue.str "2.0"), ("id", JValue.str "nope"),
      ("result", JValue.null)])
    rfl rfl
    (by
      intro s hg
      simp [jGetJ, dictGet] at hg
      subst hg
      rfl)

theorem handle_response_pending_other (st : ClientState) (m : JValue) (rid : String)
    (h : jGetJ m "id" ≠ some (JValue.str rid)) :
    dictGet (handle_response st m).pendingRequests rid = dictGet st.pendingRequests rid := by
  unfold handle_response
  cases hg : jGetJ m "id" with
  | none => rfl
  | some v =>
    cases v with
    | str s =>
      have hs : s ≠ rid := fun e => h (e ▸ hg)
      by_cases hp : dictHas st.pendingRequests s = true
      · simp [hp, dictGet_setEventFlag_ne hs]
      · simp [hp]
    | null => rfl
    | bool b => rfl
    | num n => rfl
    | arr xs => rfl
    | obj fs => rfl

theorem handle_message_pending_other (st : ClientState) (m : JValue) (rid : String)
    (h : jGetJ m "id" ≠ some (JValue.str rid)) :
    dictGet (handle_message st m).1.pendingRequests rid = dictGet st.pendingRequests rid := by
  unfold handle_message
  cases hv : validate_message m with
  | error e => rfl
  | ok u =>
    by_cases c1 : (hasKeyJ m "id" && (hasKeyJ m "result" || hasKeyJ m "error")) = true
    · simp [c1, handle_response_pending_other st m rid h]
    · by_cases c2 : (hasKeyJ m "method" && !hasKeyJ m "id") = true
      · simp [c1, c2]
      · by_cases c3 : (hasKeyJ m "method" && hasKeyJ m "id") = true
        · simp [c1, c2, c3]
        · simp [c1, c2, c3]

/-- C2: over an asynchronous transport (send_message returned None), after
_send_request returns, neither pending_requests nor request_responses
contains the request id (the finally block removes the entry on the
timeout path and the success path alike), and when no delivered message
releases this id's waiter within the timeout, the call fails with the
TimeoutError for that id. -/
theorem timeout_removes_entry (tb : TransportBehavior) (st : ClientState)
    (method : String) (params : List (String × JValue)) (sfx rid : String)
    (hasync : tb.directResponse = none)
    (hrid : rid = (generate_request_id st.requestIdCounter sfx).1) :
    dictHas (sendRequest tb st method params sfx).2.1.pendingRequests rid = false ∧
    dictHas (sendRequest tb st method params sfx).2.1.requestResponses rid = false ∧
    ((∀ m, tb.arrival = some m → jGetJ m "id" ≠ some (JValue.str rid)) →
      (sendRequest tb st method params sfx).1 = Except.error (ClientErr.timeout rid)) := by
  subst hrid
  refine ⟨?_, ?_, ?_⟩
  · simp only [sendRequest, hasync]
    simp [dictHas_dictErase_self]
  · simp only [sendRequest, hasync]
    simp [dictHas_dictErase_self]
  · intro harr
    simp only [sendRequest, hasync]
    cases harrival : tb.arrival with
    | none =>
      simp [dictGet_dictInsert_self]
    | some m =>
      have hm := harr m harrival
      simp [handle_message_pending_other _ m _ hm, dictGet_dictInsert_self]

/-- Witness for C2: a stdio-transport call whose waiter is never released
times out with the generated id and both table entries are gone. -/
theorem timeout_removes_entry_witness :
    dictHas (sendRequest ⟨TransportKind.stdio, none, none⟩ ⟨0, [], [], none, true⟩
      "tools/call" [] "00000000").2.1.pendingRequests "req_1_00000000" = false ∧
    dictHas (sendRequest ⟨TransportKind.stdio, none, none⟩ ⟨0, [], [], none, true⟩
      "tools/call" [] "00000000").2.1.requestResponses "req_1_00000000" = false ∧
    (sendRequest ⟨TransportKind.stdio, none, none⟩ ⟨0, [], [], none, true⟩
      "tools/call" [] "00000000").1 = Except.error (ClientErr.timeout "req_1_00000000") := by
  have h := timeout_removes_entry ⟨TransportKind.stdio, none, none⟩ ⟨0, [], [], none, true⟩
    "tools/call" [] "00000000" "req_1_00000000" rfl (by rfl)
  exact ⟨h.1, h.2.1, h.2.2 (fun m hm => Option.noConfusion hm)⟩

theorem sendRequest_trace_cons (tb : TransportBehavior) (st : ClientState)
    (method : String) (params : List (String × JValue)) (sfx : String) :
    ∃ rest, (sendRequest tb st method params sfx).2.2 =
      requestToDict method params (generate_request_id st.requestIdCounter sfx).1 :: rest := by
  unfold sendRequest
  cases tb.directResponse with
  | none => exact ⟨_, rfl⟩
  | some v =>
    cases v with
    | obj o => exact ⟨[], rfl⟩
    | null => exact ⟨_, rfl⟩
    | bool b => exact ⟨_, rfl⟩
    | num n => exact ⟨_, rfl⟩
    | str s => exact ⟨_, rfl⟩
    | arr xs => exact ⟨_, rfl⟩

/-- C7 counterexample: MCPClient.initialize performs no check of the
initialized flag.  On a client whose state is already initialized, a
second initialize call does not fail with a local error: it succeeds and
puts one message, the second initialize Request, on the wire. -/
theorem repeated_handshake_goes_to_wire :
    (initializeSession ⟨TransportKind.http,
        some (JValue.obj [("jsonrpc", JValue.str "2.0"), ("id", JValue.str "req_1_0a0a0a0a"),
          ("result", JValue.obj [])]), none⟩
      ⟨0, [], [], none, true⟩ (JValue.obj []) "0a0a0a0a").1 = Except.ok (JValue.obj []) ∧
    (initializeSession ⟨TransportKind.http,
        some (JValue.obj [("jsonrpc", JValue.str "2.0"), ("id", JValue.str "req_1_0a0a0a0a"),
          ("result", JValue.obj [])]), none⟩
      ⟨0, [], [], none, true⟩ (JValue.obj []) "0a0a0a0a").2.2.length = 1 := by
  constructor <;> rfl

/-- C7 amended: calling initialize on an already-initialized client does
not fail locally; the handshake is simply performed again, and the first
message put on the wire is a fresh initialize Request. -/
theorem handshake_resent_when_already_initialized (tb : TransportBehavior)
    (st : ClientState) (info : JValue) (sfx : String)
    (_h : st.initialized = true) :
    (initializeSession tb st info sfx).2.2.head? =
      some (requestToDict "initialize" (initParams info)
        (generate_request_id st.requestIdCounter sfx).1) := by
  obtain ⟨rest, htr⟩ := sendRequest_trace_cons tb st "initialize" (initParams info) sfx
  unfold initializeSession
  rcases hout : sendRequest tb st "initialize" (initParams info) sfx with ⟨r, st', tr⟩
  rw [hout] at htr
  simp only at htr
  cases r with
  | error e => simp [htr]
  | ok resp =>
    by_cases herr : hasKeyJ resp "error" = true
    · simp [herr, htr]
    · simp [herr, htr]

/-- Witness for C7 amended at a concrete already-initialized client. -/
theorem handshake_resent_witness :
    (initializeSession ⟨TransportKind.http, some (JValue.obj [("result", JValue.obj [])]),
        none⟩ ⟨0, [], [], none, true⟩ (JValue.obj []) "0a0a0a0a").2.2.head? =
      some (requestToDict "initialize" (initParams (JValue.obj []))
        (generate_request_id 0 "0a0a0a0a").1) :=
  handshake_resent_when_already_initialized
    ⟨TransportKind.http, some (JValue.obj [("result", JValue.obj [])]), none⟩
    ⟨0, [], [], none, true⟩ (JValue.obj []) "0a0a0a0a" rfl

theorem dictHas_dictInsert_self {α : Type} (l : List (String × α)) (k : String) (v : α) :
    dictHas (dictInsert l k v) k = true := by
  simp [dictInsert, dictHas]

theorem dictGet_setEventFlag_dictInsert (l : List (String × Bool)) (k : String) :
    dictGet (setEventFlag (dictInsert l k false) k) k = some true := by
  simp [dictInsert, setEventFlag, dictGet]

theorem validate_responseFor (rid : String) (r : JValue) :
    validate_message (responseFor rid r) = Except.ok () := by
  simp [responseFor, validate_message, dictGet, dictHas]

theorem responseFor_hasKey_id (rid : String) (r : JValue) :
    hasKeyJ (responseFor rid r) "id" = true := by
  simp [responseFor, hasKeyJ, dictHas]

theorem responseFor_hasKey_result (rid : String) (r : JValue) :
    hasKeyJ (responseFor rid r) "result" = true := by
  simp [responseFor, hasKeyJ, dictHas]

theorem responseFor_hasKey_error (rid : String) (r : JValue) :
    hasKeyJ (responseFor rid r) "error" = false := by
  simp [responseFor, hasKeyJ, dictHas]

theorem responseFor_get_id (rid : String) (r : JValue) :
    jGetJ (responseFor rid r) "id" = some (JValue.str rid) := by
  simp [responseFor, jGetJ, dictGet]

theorem responseFor_get_result (rid : String) (r : JValue) :
    jGetJ (responseFor rid r) "result" = some r := by
  simp [responseFor, jGetJ, dictGet]

theorem handle_message_responseFor (st : ClientState) (rid : String) (r : JValue)
    (hpend : dictHas st.pendingRequests rid = true) :
    handle_message st (responseFor rid r) =
      ({ st with
          requestResponses := dictInsert st.requestResponses rid (responseFor rid r),
          pendingRequests := setEventFlag st.pendingRequests rid }, []) := by
  unfold handle_message
  rw [validate_responseFor]
  simp only [responseFor_hasKey_id, responseFor_hasKey_result, Bool.true_or, Bool.true_and,
    if_true]
  unfold handle_response
  rw [responseFor_get_id]
  simp [hpend]

/-- C9: after a successful initialize over the HTTP transport (the only
transport class whose constructor assigns a session attribute), exactly
one message, the initialize Request, goes on the wire: the initialized
Notification is suppressed.  Over the session-less transports (pipe and
socket) a successful initialize sends the initialize Request and then the
initialized Notification. -/
theorem http_initialize_suppresses_notification :
    (∀ (st : ClientState) (info : JValue) (sfx : String) (o : List (String × JValue)),
      dictHas o "error" = false →
      (initializeSession ⟨TransportKind.http, some (JValue.obj o), none⟩ st info sfx).2.2 =
        [requestToDict "initialize" (initParams info)
          (generate_request_id st.requestIdCounter sfx).1]) ∧
    (∀ (k : TransportKind) (st : ClientState) (info : JValue) (sfx : String) (r : JValue),
      hasSessionAttr k = false →
      (initializeSession ⟨k, none,
          some (responseFor (generate_request_id st.requestIdCounter sfx).1 r)⟩
        st info sfx).2.2 =
        [requestToDict "initialize" (initParams info)
          (generate_request_id st.requestIdCounter sfx).1,
         notificationToDict "initialized" []]) := by
  constructor
  · intro st info sfx o herr
    simp [initializeSession, sendRequest, hasKeyJ, herr, sendNotificationTrace, hasSessionAttr]
  · intro k st info sfx r hsess
    simp [initializeSession, sendRequest, handle_message_responseFor, dictHas_dictInsert_self,
      dictGet_dictInsert_self, dictGet_setEventFlag_dictInsert, responseFor_hasKey_error,
      responseFor_get_result, sendNotificationTrace, hsess]

/-- Witness for C9: an HTTP handshake puts one message on the wire, a
stdio handshake puts the request and then the initialized notification. -/
theorem http_initialize_suppresses_notification_witness :
    (initializeSession ⟨TransportKind.http, some (JValue.obj [("result", JValue.obj [])]),
        none⟩ ⟨0, [], [], none, false⟩ (JValue.obj []) "ab12cd34").2.2 =
      [requestToDict "initialize" (initParams (JValue.obj []))
        (generate_request_id 0 "ab12cd34").1] ∧
    (initializeSession ⟨TransportKind.stdio, none,
        some (responseFor (generate_request_id 0 "ab12cd34").1 (JValue.obj []))⟩
      ⟨0, [], [], none, false⟩ (JValue.obj []) "ab12cd34").2.2 =
      [requestToDict "initialize" (initParams (JValue.obj []))
        (generate_request_id 0 "ab12cd34").1,
       notificationToDict "initialized" []] :=
  ⟨http_initialize_suppresses_notification.1 ⟨0, [], [], none, false⟩ (JValue.obj [])
    "ab12cd34" [("result", JValue.obj [])] rfl,
   http_initialize_suppresses_notification.2 TransportKind.stdio ⟨0, [], [], none, false⟩
    (JValue.obj []) "ab12cd34" (JValue.obj []) rfl⟩
